import Mathlib

/-!
Shallow embedding of the pure helper logic of `src/app.py` (a Streamlit
contact-update form): digit stripping and Brazilian phone formatting,
NaN/empty value cleansing, multi-format date parsing, column resolution,
record selection by name, submission payload assembly, and the
spreadsheet-save error boundary.  Python strings are modelled as `List Char`,
missing values (`None` / pandas `NaN`) as `Option` or dedicated constructors,
and code that can raise as `Option`/`Except`-valued functions.
-/

/-- Python `str` values are modelled as lists of characters. -/
abbrev PyStr := List Char

/-- Python `str.strip()`: remove leading and trailing whitespace. -/
def pyStrip (s : PyStr) : PyStr :=
  ((s.dropWhile Char.isWhitespace).reverse.dropWhile Char.isWhitespace).reverse

/-- Embedding of `only_digits` (app.py line 418): `re.sub(r"\D+", "", s or "")`.
A `None` argument (and the empty string) falls to `""` through `s or ""`;
otherwise every non-digit character is removed.  Python `\d` is Unicode-aware,
but every phone value exercised by the program and the spec is ASCII, so
`Char.isDigit` models it. -/
def only_digits : Option PyStr → PyStr
  | none => []
  | some s => s.filter Char.isDigit

/-- Embedding of `format_phone_br` (app.py lines 421-433): extract the digits of
`str(s)`, strip a trailing `".0"` if present (`digits.endswith('.0')` /
`digits[:-2]`), return bare digits when fewer than 3 remain, otherwise render
`"(AA) rest"`, hyphenating an 8- or 9-digit remainder. -/
def format_phone_br (s : PyStr) : PyStr :=
  let digits0 := only_digits (some s)
  let digits := if List.isSuffixOf ['.', '0'] digits0 then digits0.dropLast.dropLast else digits0
  if digits.length < 3 then digits
  else
    let ddd := digits.take 2
    let resto := digits.drop 2
    let resto2 :=
      if resto.length = 8 then resto.take 4 ++ ['-'] ++ resto.drop 4
      else if resto.length = 9 then resto.take 5 ++ ['-'] ++ resto.drop 5
      else resto
    ['('] ++ ddd ++ [')', ' '] ++ resto2

/-- The same function with the internal `".0"`-stripping branch removed; used to
state that the branch in `format_phone_br` is unreachable. -/
def format_phone_br_no_strip (s : PyStr) : PyStr :=
  let digits := only_digits (some s)
  if digits.length < 3 then digits
  else
    let ddd := digits.take 2
    let resto := digits.drop 2
    let resto2 :=
      if resto.length = 8 then resto.take 4 ++ ['-'] ++ resto.drop 4
      else if resto.length = 9 then resto.take 5 ++ ['-'] ++ resto.drop 5
      else resto
    ['('] ++ ddd ++ [')', ' '] ++ resto2

/-- Python cell values reaching `clean_value`: `None`, float NaN, ints, other
floats (as exact rationals), and strings. -/
inductive PyValue where
  | pnone
  | pnan
  | pint (n : Int)
  | pfloat (q : ℚ)
  | pstr (s : PyStr)
  deriving DecidableEq

/-- Embedding of `clean_value` (app.py lines 90-101).  The first Python branch
(`value is None or pd.isna(value) or str(value).strip() in ['', 'nan', 'NaN']`)
catches exactly `None`, NaN and the listed strings: `str()` of an int or of a
non-NaN float never strips to `''`, `'nan'` or `'NaN'`.  For numbers,
`value == int(value)` holds for every int and exactly for the floats that are
integral (denominator 1, `int()` truncating toward zero), which are rendered
via `str(int(value))`; `str()` on a non-integral float is external float
formatting, passed in as `floatRepr`.  Other values are stringified and
stripped. -/
def clean_value (floatRepr : ℚ → PyStr) : PyValue → PyStr
  | .pnone => []
  | .pnan => []
  | .pint n => (toString n).toList
  | .pfloat q => if q.den = 1 then (toString q.num).toList else floatRepr q
  | .pstr s =>
    if pyStrip s = [] ∨ pyStrip s = "nan".toList ∨ pyStrip s = "NaN".toList then []
    else pyStrip s

/-- Stand-in for Python `str()` on a non-integral float, used only where a
concrete instantiation of the `floatRepr` parameter is needed; no claim
exercises that branch (they concern integral numbers, strings and missing
values), so its value is irrelevant throughout. -/
def pyFloatRepr (q : ℚ) : PyStr := (toString q.num).toList

/-- A calendar date as produced by `datetime.date`. -/
structure PyDate where
  year : Nat
  month : Nat
  day : Nat
  deriving DecidableEq, Repr

/-- Gregorian leap-year rule used by `datetime`. -/
def isLeap (y : Nat) : Bool := y % 4 == 0 && (y % 100 != 0 || y % 400 == 0)

/-- Length of a month as validated by `datetime.date`. -/
def daysInMonth (y m : Nat) : Nat :=
  if m = 2 then (if isLeap y then 29 else 28)
  else if m = 4 ∨ m = 6 ∨ m = 9 ∨ m = 11 then 30
  else 31

/-- Construction of `datetime.date(y, m, d)`: raises (here `none`) outside
year range 1..9999 or for a day outside the month. -/
def mkDateValid (y m d : Nat) : Option PyDate :=
  if 1 ≤ y ∧ y ≤ 9999 ∧ 1 ≤ m ∧ m ≤ 12 ∧ 1 ≤ d ∧ d ≤ daysInMonth y m then
    some ⟨y, m, d⟩
  else none

/-- Numeric value of an ASCII digit character. -/
def digitVal (c : Char) : Nat := c.toNat - '0'.toNat

/-- CPython strptime field regex for `%d`: `3[01]|[12]\d|0[1-9]|[1-9]`,
alternatives tried left to right; returns the parsed day and the rest of the
input. -/
def parse_d : PyStr → Option (Nat × PyStr)
  | [] => none
  | [c0] => if '1' ≤ c0 ∧ c0 ≤ '9' then some (digitVal c0, []) else none
  | c0 :: c1 :: rest =>
    if c0 = '3' ∧ (c1 = '0' ∨ c1 = '1') then some (30 + digitVal c1, rest)
    else if (c0 = '1' ∨ c0 = '2') ∧ c1.isDigit then some (10 * digitVal c0 + digitVal c1, rest)
    else if c0 = '0' ∧ ('1' ≤ c1 ∧ c1 ≤ '9') then some (digitVal c1, rest)
    else if '1' ≤ c0 ∧ c0 ≤ '9' then some (digitVal c0, c1 :: rest)
    else none

/-- CPython strptime field regex for `%m`: `1[0-2]|0[1-9]|[1-9]`. -/
def parse_m : PyStr → Option (Nat × PyStr)
  | [] => none
  | [c0] => if '1' ≤ c0 ∧ c0 ≤ '9' then some (digitVal c0, []) else none
  | c0 :: c1 :: rest =>
    if c0 = '1' ∧ (c1 = '0' ∨ c1 = '1' ∨ c1 = '2') then some (10 + digitVal c1, rest)
    else if c0 = '0' ∧ ('1' ≤ c1 ∧ c1 ≤ '9') then some (digitVal c1, rest)
    else if '1' ≤ c0 ∧ c0 ≤ '9' then some (digitVal c0, c1 :: rest)
    else none

/-- CPython strptime field regex for `%Y`: exactly four digits. -/
def parse_Y4 : PyStr → Option (Nat × PyStr)
  | a :: b :: c :: d :: rest =>
    if a.isDigit ∧ b.isDigit ∧ c.isDigit ∧ d.isDigit then
      some (1000 * digitVal a + 100 * digitVal b + 10 * digitVal c + digitVal d, rest)
    else none
  | _ => none

/-- CPython strptime field regex for `%y`: exactly two digits, with the pivot
00-68 ↦ 2000-2068 and 69-99 ↦ 1969-1999. -/
def parse_y2 : PyStr → Option (Nat × PyStr)
  | a :: b :: rest =>
    if a.isDigit ∧ b.isDigit then
      let y := 10 * digitVal a + digitVal b
      some ((if y ≤ 68 then 2000 + y else 1900 + y), rest)
    else none
  | _ => none

/-- A literal character of a strptime format string. -/
def expectChar (c : Char) : PyStr → Option PyStr
  | x :: r => if x = c then some r else none
  | [] => none

/-- Embedding of `datetime.strptime(s, "%d/%m/%Y").date()`: the whole input
must be consumed (`unconverted data remains` otherwise) and the date must be
a valid calendar date; a raised ValueError is `none`. -/
def strptime_dmY (s : PyStr) : Option PyDate := do
  let (d, r1) ← parse_d s
  let r2 ← expectChar '/' r1
  let (m, r3) ← parse_m r2
  let r4 ← expectChar '/' r3
  let (y, r5) ← parse_Y4 r4
  if r5 = [] then mkDateValid y m d else none

/-- Embedding of `datetime.strptime(s, "%Y-%m-%d").date()`. -/
def strptime_Ymd (s : PyStr) : Option PyDate := do
  let (y, r1) ← parse_Y4 s
  let r2 ← expectChar '-' r1
  let (m, r3) ← parse_m r2
  let r4 ← expectChar '-' r3
  let (d, r5) ← parse_d r4
  if r5 = [] then mkDateValid y m d else none

/-- Embedding of `datetime.strptime(s, "%d-%m-%Y").date()`. -/
def strptime_dmY_dash (s : PyStr) : Option PyDate := do
  let (d, r1) ← parse_d s
  let r2 ← expectChar '-' r1
  let (m, r3) ← parse_m r2
  let r4 ← expectChar '-' r3
  let (y, r5) ← parse_Y4 r4
  if r5 = [] then mkDateValid y m d else none

/-- Embedding of `datetime.strptime(s, "%d/%m/%y").date()`. -/
def strptime_dmy2 (s : PyStr) : Option PyDate := do
  let (d, r1) ← parse_d s
  let r2 ← expectChar '/' r1
  let (m, r3) ← parse_m r2
  let r4 ← expectChar '/' r3
  let (y, r5) ← parse_y2 r4
  if r5 = [] then mkDateValid y m d else none

/-- Embedding of `to_date_safe` (app.py lines 402-415): a null/NaN cell
(`pd.isna`) is `none`; otherwise the four strptime patterns are tried in
order on `str(v).strip()` and the first success returned; otherwise the
`pd.to_datetime(v, dayfirst=True)` fallback — external library code, passed
in as `fb`, its raise modelled by `none` — decides the result. -/
def to_date_safe (fb : PyStr → Option PyDate) : Option PyStr → Option PyDate
  | none => none
  | some s =>
    match strptime_dmY (pyStrip s) with
    | some d => some d
    | none =>
      match strptime_Ymd (pyStrip s) with
      | some d => some d
      | none =>
        match strptime_dmY_dash (pyStrip s) with
        | some d => some d
        | none =>
          match strptime_dmy2 (pyStrip s) with
          | some d => some d
          | none =>
            match fb s with
            | some d => some d
            | none => none

/-- Candidate spellings for the birth-date column (app.py line 374). -/
def CANDS_DN : List String :=
  ["data_de_nascimento", "data_nascimento", "data_nasc", "nascimento", "dt_nasc", "dt_nascimento"]

/-- Candidate spellings for the name column (app.py line 375). -/
def CANDS_NOME : List String := ["nome_do_filiado", "nome", "nome_completo"]

/-- Candidate spellings for the e-mail column (app.py line 376). -/
def CANDS_EMAIL : List String := ["e-mail", "email", "e_mail"]

/-- Candidate spellings for the phone column (app.py line 377). -/
def CANDS_WHATS : List String :=
  ["celular_whatsapp", "celular", "telefone", "telefone_whatsapp", "whatsapp"]

/-- Embedding of `first_col` (app.py lines 379-383): the first candidate
present among the table's columns, else `None`. -/
def first_col (cols : List String) (options : List String) : Option String :=
  options.find? (fun c => cols.contains c)

/-- The `missing` list of app.py line 390: UI label paired with the resolved
column of each mandatory logical field. -/
def missing_pairs (cols : List String) : List (String × Option String) :=
  [("Data de Nascimento", first_col cols CANDS_DN),
   ("Nome", first_col cols CANDS_NOME),
   ("E-mail", first_col cols CANDS_EMAIL),
   ("Celular/WhatsApp", first_col cols CANDS_WHATS)]

/-- app.py line 391: the labels whose column was not found. -/
def missing_cols (cols : List String) : List String :=
  ((missing_pairs cols).filter (fun lv => lv.2.isNone)).map Prod.fst

/-- app.py lines 392-399: when any label is missing the app reports the list
and calls `st.stop()` before any lookup UI is built. -/
def lookup_halts (cols : List String) : Bool := !(missing_cols cols).isEmpty

/-- One row of the loaded table, restricted to the cells the lookup flow
reads: the raw birth-date cell and the raw name cell (`none` = NaN in both);
`phone` keeps rows with equal names distinguishable. -/
structure Row where
  dn : Option PyStr
  nome : Option PyStr
  phone : PyValue
  deriving DecidableEq

/-- app.py lines 435 and 452: the derived `_dn_date` column is `to_date_safe`
of the raw cell, and `matches` keeps the rows whose parsed date equals the
queried one (pandas `==`; a row whose date failed to parse matches nothing).
The Python variable is called `matches`, a reserved word here. -/
def matches_rows (fb : PyStr → Option PyDate) (df : List Row) (dob : PyDate) : List Row :=
  df.filter (fun r => decide (to_date_safe fb r.dn = some dob))

/-- app.py line 459: the selectbox options are the matched names with NaN
filled by `"(sem nome)"`. -/
def opcoes (ms : List Row) : List PyStr :=
  ms.map (fun r => r.nome.getD "(sem nome)".toList)

/-- app.py line 461: `matches[matches[col_nome] == escolha].iloc[0]` — the
first row whose raw name cell equals the chosen name exactly (`iloc[0]` of an
empty selection raises, modelled as `none`). -/
def selecionado (ms : List Row) (escolha : PyStr) : Option Row :=
  (ms.filter (fun r => decide (r.nome = some escolha))).head?

/-- The fixed sink header (app.py lines 77-88). -/
def FORM_HEADER : List String :=
  ["timestamp", "data_nascimento", "nome_do_filiado", "email_atual",
   "celular_whatsapp_atual", "corrigir_telefone_whatsapp", "novo_celular_whatsapp",
   "corrigir_email", "novo_email", "setorial"]

/-- app.py lines 538-540: the current phone is cleansed and a trailing `".0"`
stripped. -/
def telefone_atual (floatRepr : ℚ → PyStr) (sel_whats : PyValue) : PyStr :=
  let t := clean_value floatRepr sel_whats
  if List.isSuffixOf ['.', '0'] t then t.dropLast.dropLast else t

/-- app.py lines 543-545: the replacement phone is digit-stripped when the
text field is truthy (`only_digits(novo_fone) if novo_fone else ""`), then a
trailing `".0"` is stripped. -/
def novo_fone_digits (novo_fone : Option PyStr) : PyStr :=
  let d := match novo_fone with
    | none => []
    | some s => if s = [] then [] else only_digits (some s)
  if List.isSuffixOf ['.', '0'] d then d.dropLast.dropLast else d

/-- Embedding of the `payload` dict (app.py lines 547-558) as an ordered
association list; `novo_mail.getD []` is `novo_mail or ""`. -/
def payload (floatRepr : ℚ → PyStr) (ts dob_str : PyStr)
    (sel_nome sel_email sel_whats : PyValue) (opt_fone : Bool)
    (novo_fone : Option PyStr) (opt_mail : Bool) (novo_mail : Option PyStr)
    (setorial : PyStr) : List (String × PyStr) :=
  [("timestamp", ts),
   ("data_nascimento", dob_str),
   ("nome_do_filiado", clean_value floatRepr sel_nome),
   ("email_atual", clean_value floatRepr sel_email),
   ("celular_whatsapp_atual", telefone_atual floatRepr sel_whats),
   ("corrigir_telefone_whatsapp", (if opt_fone then "Sim" else "Não").toList),
   ("novo_celular_whatsapp", novo_fone_digits novo_fone),
   ("corrigir_email", (if opt_mail then "Sim" else "Não").toList),
   ("novo_email", clean_value floatRepr (.pstr (novo_mail.getD []))),
   ("setorial", setorial)]

/-- app.py lines 135-145 for one phone field of the cleaned payload: strip a
trailing `".0"`; else, if the value contains a dot and reads as a decimal
number (`valor.replace('.', '').isdigit()`), replace it by
`str(int(float(valor)))` — a Python float round-trip, passed in abstractly as
`intFloat`, whose raise (swallowed by `except: pass`) is `none`. -/
def fix_phone_field (intFloat : PyStr → Option PyStr) (v : PyStr) : PyStr :=
  if List.isSuffixOf ['.', '0'] v then v.dropLast.dropLast
  else if ('.' ∈ v) ∧ (v.filter (fun c => c != '.')) ≠ [] ∧
      ((v.filter (fun c => c != '.')).all Char.isDigit = true) then
    (intFloat v).getD v
  else v

/-- app.py lines 130-145: every payload value is cleansed again (each is a
string at this point) and the two phone fields, when present, are normalized
in place — for an association list with these fixed distinct keys, a map over
the entries. -/
def cleaned_payload (floatRepr : ℚ → PyStr) (intFloat : PyStr → Option PyStr)
    (p : List (String × PyStr)) : List (String × PyStr) :=
  (p.map (fun kv => (kv.1, clean_value floatRepr (.pstr kv.2)))).map
    (fun kv =>
      if kv.1 = "celular_whatsapp_atual" ∨ kv.1 = "novo_celular_whatsapp" then
        (kv.1, fix_phone_field intFloat kv.2)
      else kv)

/-- app.py line 147: `row = [cleaned_payload.get(k, "") for k in FORM_HEADER]`. -/
def salvar_row (floatRepr : ℚ → PyStr) (intFloat : PyStr → Option PyStr)
    (dados : List (String × PyStr)) : List PyStr :=
  FORM_HEADER.map (fun k => ((cleaned_payload floatRepr intFloat dados).lookup k).getD [])

/-- Outcome of `sh.worksheet(WORKSHEET_NAME)`: found, the caught
`gspread.WorksheetNotFound`, or any other raised error. -/
inductive WsOutcome where
  | found
  | notFound
  | err (e : PyStr)

/-- One session's external spreadsheet behaviour: the outcome of each call the
`try` block of `salvar_em_planilha` makes, as data.  `Except.error e` models a
raised exception carrying message `e`. -/
structure SinkEnv where
  client : Option Unit
  openRes : Except PyStr Unit
  wsRes : WsOutcome
  addWsRes : Except PyStr Unit
  getAllEmpty : Except PyStr Bool
  appendHeaderRes : Except PyStr Unit
  appendRowRes : Except PyStr Unit

/-- The operator-visible report of app.py line 152:
`st.error(f"Erro ao salvar na planilha: {e}")`. -/
def erroMsg (e : PyStr) : PyStr := "Erro ao salvar na planilha: ".toList ++ e

/-- Embedding of the control flow of `salvar_em_planilha` (app.py lines
103-153) over an abstract sink: the boolean result paired with the reported
error message, if any.  A `None` client returns `False` with no boundary
report (credential errors were already shown inside `get_gspread_client`);
any exception raised inside the `try` block reaches the single `except`
handler, which shows the message and returns `False`; the pure payload
cleaning that happens between the calls is `cleaned_payload`/`salvar_row`
above. -/
def salvar_em_planilha (env : SinkEnv) : Bool × Option PyStr :=
  match env.client with
  | none => (false, none)
  | some _ =>
    match env.openRes with
    | .error e => (false, some (erroMsg e))
    | .ok _ =>
      let ws : Except PyStr Unit :=
        match env.wsRes with
        | .found => .ok ()
        | .notFound => env.addWsRes
        | .err e => .error e
      match ws with
      | .error e => (false, some (erroMsg e))
      | .ok _ =>
        match env.getAllEmpty with
        | .error e => (false, some (erroMsg e))
        | .ok isEmpty =>
          match (if isEmpty then env.appendHeaderRes else Except.ok ()) with
          | .error e => (false, some (erroMsg e))
          | .ok _ =>
            match env.appendRowRes with
            | .error e => (false, some (erroMsg e))
            | .ok _ => (true, none)

/-- Spec end-to-end scenario 2, first row: a registrant born 01/01/1990. -/
def row_joao_souza : Row :=
  ⟨some "01/01/1990".toList, some "João Souza".toList, .pstr "85911112222".toList⟩

/-- Spec end-to-end scenario 2, second row: another registrant born 01/01/1990. -/
def row_joao_paulo : Row :=
  ⟨some "01/01/1990".toList, some "João Paulo".toList, .pstr "85933334444".toList⟩

/-- Spec end-to-end scenario 2: a table with the two rows above. -/
def df_scenario2 : List Row := [row_joao_souza, row_joao_paulo]

/-- Two different rows (distinct phone cells) sharing one name and date. -/
def row_dup1 : Row :=
  ⟨some "01/01/1990".toList, some "João Souza".toList, .pstr "85911112222".toList⟩

/-- The second row sharing `row_dup1`'s name and date. -/
def row_dup2 : Row :=
  ⟨some "01/01/1990".toList, some "João Souza".toList, .pstr "85999998888".toList⟩

example : format_phone_br "85999998888".toList = "(85) 99999-8888".toList := by decide

example : format_phone_br "85999998888.0".toList = "(85) 9999988880".toList := by decide

example : format_phone_br "(85) 3333-4444".toList = "(85) 3333-4444".toList := by decide

example : format_phone_br "12".toList = "12".toList := by decide

/-- Digits survive `only_digits` unchanged: filtering a digit-only list is the
identity, so applying the digit filter twice equals applying it once. -/
theorem filter_isDigit_idem (l : List Char) :
    (l.filter Char.isDigit).filter Char.isDigit = l.filter Char.isDigit := by
  simp [List.filter_filter]

/-- A list of digit characters never has `".0"` as a suffix: `'.'` is not a
digit. -/
theorem dotZero_not_suffix_of_digits (l : List Char)
    (h : ∀ c ∈ l, c.isDigit = true) : List.isSuffixOf ['.', '0'] l = false := by
  cases hs : List.isSuffixOf ['.', '0'] l with
  | false => rfl
  | true =>
    exfalso
    have hsuf : ['.', '0'] <:+ l := List.isSuffixOf_iff_suffix.mp hs
    have hmem : '.' ∈ l := hsuf.sublist.subset (by simp)
    have := h '.' hmem
    simp at this

/-- The `".0"`-strip branch of `format_phone_br` is dead code: the digits it
inspects were just produced by `only_digits`. -/
theorem format_phone_br_eq_no_strip (s : PyStr) :
    format_phone_br s = format_phone_br_no_strip s := by
  have h : List.isSuffixOf ['.', '0'] (only_digits (some s)) = false :=
    dotZero_not_suffix_of_digits _ (fun c hc => List.of_mem_filter hc)
  simp [format_phone_br, format_phone_br_no_strip, h]

/-- A list all of whose members are digits is untouched by the digit filter. -/
theorem filter_digit_self (l : List Char) (h : ∀ c ∈ l, c.isDigit = true) :
    l.filter Char.isDigit = l :=
  List.filter_eq_self.mpr h

/-- The digit projection of a formatted phone number equals the digit
projection of the original input: the decoration added by `format_phone_br`
(`'('`, `')'`, `' '`, `'-'`) consists of non-digits only. -/
theorem digits_of_format_phone_br (s : PyStr) :
    (format_phone_br s).filter Char.isDigit = s.filter Char.isDigit := by
  rw [format_phone_br_eq_no_strip]
  have hall : ∀ c ∈ s.filter Char.isDigit, c.isDigit = true :=
    fun c hc => List.of_mem_filter hc
  set d := s.filter Char.isDigit with hd
  have hsub : ∀ l : List Char, l ⊆ d → l.filter Char.isDigit = l :=
    fun l hl => List.filter_eq_self.mpr (fun c hc => hall c (hl hc))
  have htake : ∀ n : Nat, (d.take n).filter Char.isDigit = d.take n :=
    fun n => hsub _ (List.take_subset n d)
  have hdrop : ∀ n : Nat, (d.drop n).filter Char.isDigit = d.drop n :=
    fun n => hsub _ (List.drop_subset n d)
  have htd : ∀ n : Nat, ((d.drop 2).take n).filter Char.isDigit = (d.drop 2).take n :=
    fun n => hsub _ (fun c hc => List.drop_subset 2 d (List.take_subset n _ hc))
  by_cases hlen : d.length < 3
  · simp [format_phone_br_no_strip, only_digits, ← hd, hlen, filter_isDigit_idem]
    exact hall
  · by_cases h8 : d.length - 2 = 8
    · simp [format_phone_br_no_strip, only_digits, ← hd, hlen, h8, List.filter_append,
        htake, htd, hdrop]
      have e1 : List.take 4 (List.drop 2 d) ++ List.drop 6 d = List.drop 2 d := by
        simpa using List.take_append_drop 4 (List.drop 2 d)
      rw [e1]
      exact List.take_append_drop 2 d
    · by_cases h9 : d.length - 2 = 9
      · simp [format_phone_br_no_strip, only_digits, ← hd, hlen, h8, h9, List.filter_append,
          htake, htd, hdrop]
        have e1 : List.take 5 (List.drop 2 d) ++ List.drop 7 d = List.drop 2 d := by
          simpa using List.take_append_drop 5 (List.drop 2 d)
        rw [e1]
        exact List.take_append_drop 2 d
      · simp [format_phone_br_no_strip, only_digits, ← hd, hlen, h8, h9, List.filter_append,
          htake, hdrop]

/-- C1: the code evaluated at the failing input of the claim.  The phone cell
value `85999998888.0`, stringified as `"85999998888.0"`, formats to
`"(85) 9999988880"` and not to the claimed `"(85) 99999-8888"`: `only_digits`
runs before the `".0"` check, so the artifact's final `'0'` survives as a
twelfth digit and the 10-digit remainder is left unhyphenated. -/
theorem format_phone_br_dot_zero_cell :
    format_phone_br "85999998888.0".toList = "(85) 9999988880".toList ∧
    format_phone_br "85999998888.0".toList ≠ "(85) 99999-8888".toList := by
  decide

/-- C10: `only_digits` maps a missing (`None`) phone value to the empty string
through its `s or ""` guard instead of raising. -/
theorem only_digits_none : only_digits none = ([] : PyStr) := rfl

/-- C9: `only_digits` emits digit characters only, so its output never ends in
`".0"`, and `format_phone_br` is extensionally equal to the same function with
the `".0"`-stripping branch removed — that branch is unreachable. -/
theorem format_phone_br_strip_branch_dead :
    (∀ s : Option PyStr, (only_digits s).all Char.isDigit = true) ∧
    (∀ s : Option PyStr, List.isSuffixOf ['.', '0'] (only_digits s) = false) ∧
    (∀ s : PyStr, format_phone_br s = format_phone_br_no_strip s) := by
  refine ⟨?_, ?_, format_phone_br_eq_no_strip⟩
  · intro s
    cases s with
    | none => rfl
    | some s =>
      simp only [only_digits, List.all_eq_true]
      intro c hc
      exact List.of_mem_filter hc
  · intro s
    cases s with
    | none => rfl
    | some s => exact dotZero_not_suffix_of_digits _ (fun c hc => List.of_mem_filter hc)

/-- C3 counterexample: `clean_value` applied to the string cell value
`"123.0"` takes the string branch and returns `"123.0"`, not the claimed
`"123"`. -/
theorem clean_value_str_counterexample :
    clean_value pyFloatRepr (.pstr "123.0".toList) = "123.0".toList ∧
    clean_value pyFloatRepr (.pstr "123.0".toList) ≠ "123".toList := by
  decide

/-- C3 amended: value cleansing renders numeric-typed (int or float) values
whose fractional part is zero as integers with no trailing `".0"` — in
particular the float cell value `123.0` cleans to `"123"` — while a string
value such as `"123.0"` is only whitespace-stripped and kept verbatim. -/
theorem clean_value_integral_numeric :
    (∀ (floatRepr : ℚ → PyStr) (n : Int),
      clean_value floatRepr (.pfloat (n : ℚ)) = (toString n).toList) ∧
    (∀ (floatRepr : ℚ → PyStr) (n : Int),
      clean_value floatRepr (.pint n) = (toString n).toList) ∧
    clean_value pyFloatRepr (.pfloat (123 : ℚ)) = "123".toList := by
  refine ⟨?_, fun floatRepr n => rfl, by decide⟩
  intro floatRepr n
  simp [clean_value, Rat.den_intCast, Rat.num_intCast]

/-- C4: phone formatting is idempotent on its digit-only projection: for every
input string, formatting the digit projection of the formatted output yields
the formatted output again. -/
theorem format_phone_br_idempotent (s : PyStr) :
    format_phone_br (only_digits (some (format_phone_br s))) = format_phone_br s := by
  have h1 : only_digits (some (format_phone_br s)) = s.filter Char.isDigit :=
    digits_of_format_phone_br s
  rw [h1, format_phone_br_eq_no_strip, format_phone_br_eq_no_strip]
  simp only [format_phone_br_no_strip, only_digits, filter_isDigit_idem]

/-- C2: `to_date_safe` is total (every input yields a date or the `none`
sentinel; exceptions are impossible by construction) and tries the patterns
`%d/%m/%Y`, `%Y-%m-%d`, `%d-%m-%Y`, `%d/%m/%y` in that order on the stripped
input, returning the calendar date of the first pattern that succeeds; when
all four fail it defers to the day-first generic parse `fb`, and a null/NaN
input — or a fallback that also fails — yields the no-date sentinel. -/
theorem to_date_safe_pattern_order :
    (∀ fb, to_date_safe fb none = none) ∧
    (∀ fb s d, strptime_dmY (pyStrip s) = some d →
      to_date_safe fb (some s) = some d) ∧
    (∀ fb s d, strptime_dmY (pyStrip s) = none → strptime_Ymd (pyStrip s) = some d →
      to_date_safe fb (some s) = some d) ∧
    (∀ fb s d, strptime_dmY (pyStrip s) = none → strptime_Ymd (pyStrip s) = none →
      strptime_dmY_dash (pyStrip s) = some d →
      to_date_safe fb (some s) = some d) ∧
    (∀ fb s d, strptime_dmY (pyStrip s) = none → strptime_Ymd (pyStrip s) = none →
      strptime_dmY_dash (pyStrip s) = none → strptime_dmy2 (pyStrip s) = some d →
      to_date_safe fb (some s) = some d) ∧
    (∀ fb s, strptime_dmY (pyStrip s) = none → strptime_Ymd (pyStrip s) = none →
      strptime_dmY_dash (pyStrip s) = none → strptime_dmy2 (pyStrip s) = none →
      to_date_safe fb (some s) = fb s) := by
  refine ⟨fun fb => rfl, ?_, ?_, ?_, ?_, ?_⟩
  · intro fb s d h1
    simp [to_date_safe, h1]
  · intro fb s d h1 h2
    simp [to_date_safe, h1, h2]
  · intro fb s d h1 h2 h3
    simp [to_date_safe, h1, h2, h3]
  · intro fb s d h1 h2 h3 h4
    simp [to_date_safe, h1, h2, h3, h4]
  · intro fb s h1 h2 h3 h4
    simp only [to_date_safe, h1, h2, h3, h4]
    cases fb s <;> rfl

/-- C2 witness: one concrete input per branch of `to_date_safe_pattern_order`,
with a generic fallback that always fails. -/
theorem to_date_safe_pattern_order_witness :
    to_date_safe (fun _ => none) none = none ∧
    to_date_safe (fun _ => none) (some "15/03/1980".toList) = some ⟨1980, 3, 15⟩ ∧
    to_date_safe (fun _ => none) (some "1990-05-17".toList) = some ⟨1990, 5, 17⟩ ∧
    to_date_safe (fun _ => none) (some "17-05-1990".toList) = some ⟨1990, 5, 17⟩ ∧
    to_date_safe (fun _ => none) (some "05/03/99".toList) = some ⟨1999, 3, 5⟩ ∧
    to_date_safe (fun _ => none) (some "not a date".toList) = none :=
  ⟨to_date_safe_pattern_order.1 _,
   to_date_safe_pattern_order.2.1 _ _ _ (by decide),
   to_date_safe_pattern_order.2.2.1 _ _ _ (by decide) (by decide),
   to_date_safe_pattern_order.2.2.2.1 _ _ _ (by decide) (by decide) (by decide),
   to_date_safe_pattern_order.2.2.2.2.1 _ _ _ (by decide) (by decide) (by decide) (by decide),
   to_date_safe_pattern_order.2.2.2.2.2 _ _ (by decide) (by decide) (by decide) (by decide)⟩

/-- C5: for every submission, whichever optional correction fields were
filled, the payload's key list equals the sink header `FORM_HEADER` exactly in
content and order, the keys survive the save-time cleaning, and the appended
row is precisely the cleaned payload's values in header order — every header
key is present, so the `""` default of `cleaned_payload.get(k, "")` is never
needed. -/
theorem payload_keys_match_header (floatRepr : ℚ → PyStr)
    (intFloat : PyStr → Option PyStr) (ts dob_str : PyStr)
    (sel_nome sel_email sel_whats : PyValue) (opt_fone : Bool)
    (novo_fone : Option PyStr) (opt_mail : Bool) (novo_mail : Option PyStr)
    (setorial : PyStr) :
    (payload floatRepr ts dob_str sel_nome sel_email sel_whats opt_fone
        novo_fone opt_mail novo_mail setorial).map Prod.fst = FORM_HEADER ∧
    (cleaned_payload floatRepr intFloat
        (payload floatRepr ts dob_str sel_nome sel_email sel_whats opt_fone
          novo_fone opt_mail novo_mail setorial)).map Prod.fst = FORM_HEADER ∧
    salvar_row floatRepr intFloat
        (payload floatRepr ts dob_str sel_nome sel_email sel_whats opt_fone
          novo_fone opt_mail novo_mail setorial) =
      (cleaned_payload floatRepr intFloat
        (payload floatRepr ts dob_str sel_nome sel_email sel_whats opt_fone
          novo_fone opt_mail novo_mail setorial)).map Prod.snd :=
  ⟨rfl, rfl, rfl⟩

/-- C6: the app reports exactly the labels of the mandatory logical fields
(birth date, name, e-mail, phone) whose aliases match no loaded column, and it
halts before any lookup precisely when that list is non-empty; a table with
birth-date, name and phone columns but no e-mail alias is rejected naming
exactly `"E-mail"`. -/
theorem missing_cols_exact_and_halt :
    (∀ cols, lookup_halts cols = true ↔ missing_cols cols ≠ []) ∧
    (∀ cols, "Data de Nascimento" ∈ missing_cols cols ↔ first_col cols CANDS_DN = none) ∧
    (∀ cols, "Nome" ∈ missing_cols cols ↔ first_col cols CANDS_NOME = none) ∧
    (∀ cols, "E-mail" ∈ missing_cols cols ↔ first_col cols CANDS_EMAIL = none) ∧
    (∀ cols, "Celular/WhatsApp" ∈ missing_cols cols ↔ first_col cols CANDS_WHATS = none) ∧
    missing_cols ["data_nascimento", "nome", "celular"] = ["E-mail"] := by
  refine ⟨?_, ?_, ?_, ?_, ?_, by decide⟩ <;>
  · intro cols
    rcases h1 : first_col cols CANDS_DN with _ | c1 <;>
    rcases h2 : first_col cols CANDS_NOME with _ | c2 <;>
    rcases h3 : first_col cols CANDS_EMAIL with _ | c3 <;>
    rcases h4 : first_col cols CANDS_WHATS with _ | c4 <;>
    simp [lookup_halts, missing_cols, missing_pairs, h1, h2, h3, h4]

/-- C7: choosing a name from the disambiguation list selects the first
matching row whose name cell equals the choice exactly; on scenario 2's table
(two rows dated 01/01/1990, named João Souza and João Paulo) the date query
matches both rows, the list offers the two names, and choosing João Paulo
yields that row only — while two different rows sharing one identical name
are indistinguishable and the first is selected silently. -/
theorem selecionado_first_exact_name_match :
    (∀ (ms : List Row) (escolha : PyStr),
      selecionado ms escolha = ms.find? (fun r => decide (r.nome = some escolha))) ∧
    (∀ fb, matches_rows fb df_scenario2 ⟨1990, 1, 1⟩ = df_scenario2) ∧
    (opcoes df_scenario2).length = 2 ∧
    selecionado df_scenario2 "João Paulo".toList = some row_joao_paulo ∧
    row_dup1 ≠ row_dup2 ∧
    selecionado [row_dup1, row_dup2] "João Souza".toList = some row_dup1 := by
  refine ⟨?_, fun fb => rfl, rfl, by decide, by decide, by decide⟩
  intro ms escolha
  induction ms with
  | nil => rfl
  | cons a l ih =>
    rw [selecionado] at ih ⊢
    by_cases h : a.nome = some escolha <;>
    simp [List.filter_cons, List.find?_cons, h, ih]

/-- C8: an error raised during the append to the spreadsheet is caught at the
boundary of `salvar_em_planilha`: the function returns failure (`false`)
together with the operator report that quotes the error verbatim, and nothing
further happens — no retry, no queued submission. -/
theorem salvar_em_planilha_append_error (env : SinkEnv) (e : PyStr) (b : Bool)
    (hc : env.client = some ()) (ho : env.openRes = Except.ok ())
    (hw : env.wsRes = WsOutcome.found) (hg : env.getAllEmpty = Except.ok b)
    (hh : b = true → env.appendHeaderRes = Except.ok ())
    (ha : env.appendRowRes = Except.error e) :
    salvar_em_planilha env = (false, some (erroMsg e)) := by
  cases b with
  | false => simp [salvar_em_planilha, hc, ho, hw, hg, ha]
  | true => simp [salvar_em_planilha, hc, ho, hw, hg, hh rfl, ha]

/-- C8 witness: a concrete session where every sink call succeeds except the
final append, which raises `APIError`; the saved result is `False` with the
verbatim report. -/
theorem salvar_em_planilha_append_error_witness :
    salvar_em_planilha
        ⟨some (), Except.ok (), WsOutcome.found, Except.ok (), Except.ok false,
          Except.ok (), Except.error "APIError".toList⟩ =
      (false, some (erroMsg "APIError".toList)) :=
  salvar_em_planilha_append_error _ _ false rfl rfl rfl rfl
    (fun h => nomatch h) rfl
